import Mathlib

/-!
Shallow embedding of `dmlc::any` (include/dmlc/any.h), a type-erased value
container, together with theorems settling the specification claims.

Modelling conventions:
* A concrete decayed C++ payload type `T` is modelled by a `PayloadType`
  record carrying `sizeof(T)`, `alignof(T)`, `std::is_pod<T>::value`,
  `std::is_trivially_destructible<T>::value`, copy-constructibility, and an
  identity token `id` standing for the address `&typeid(T)` (distinct C++
  types have distinct tokens; `name` stands for `typeid(T).name()`, coded as
  a number).  In C++, POD implies trivially destructible; theorems that need
  this carry it as a hypothesis.
* Payload values are modelled as natural numbers: the container never
  inspects a payload, it only stores, copies and destroys it, so only
  equality of values matters.
* `World` makes heap effects and descriptor-dispatch events explicit: `heap`
  is the list of live `new`-allocations (address, stored value), `nextAddr`
  generates fresh addresses, and `destroyCount` / `copyCount` count how many
  times a descriptor's `destroy` / `create_from_data` function pointer was
  invoked (instrumentation used to state "invokes no type-specific
  operation" and "released exactly once").
* Machine word size `sizeof(void*)` is a parameter `ps` of the definitions
  that depend on it.
-/

namespace DmlcAny

/-- Model of a concrete decayed C++ payload type `T`. -/
structure PayloadType where
  /-- identity token, stands for the address of `typeid(T)` -/
  id : Nat
  /-- stands for `typeid(T).name()` (coded as a number) -/
  name : Nat
  /-- `sizeof(T)` -/
  size : Nat
  /-- `alignof(T)` -/
  align : Nat
  /-- `std::is_pod<T>::value` -/
  isPod : Bool
  /-- `std::is_trivially_destructible<T>::value` -/
  isTrivDtor : Bool
  /-- `std::is_copy_constructible<T>::value` -/
  copyConstructible : Bool
deriving Repr, DecidableEq

/-- `kStack = sizeof(void*) * 3` (any.h line 127): size of the inline buffer. -/
def kStack (ps : Nat) : Nat := ps * 3

/-- `kAlign = sizeof(void*)` (any.h line 128): alignment of the inline buffer. -/
def kAlign (ps : Nat) : Nat := ps

/-- `any::data_on_stack<T>::value = alignof(T) <= kAlign && sizeof(T) <= kStack`
(any.h lines 146-149). -/
def data_on_stack (ps : Nat) (T : PayloadType) : Bool :=
  decide (T.align ≤ kAlign ps) && decide (T.size ≤ kStack ps)

/-- Model of the `any::Data` union (any.h lines 130-135): the raw buffer either
holds an inline-encoded payload value (`stack`), a heap pointer (`pheap`), or is
uninitialized (default-constructed container). -/
inductive Data where
  | uninit : Data
  | stack (v : Nat) : Data
  | pheap (addr : Nat) : Data
deriving Repr, DecidableEq

/-- The explicit effect state: live heap allocations plus instrumentation
counters for descriptor-dispatched operations. -/
structure World where
  nextAddr : Nat
  /-- live `new`-allocated blocks: (address, payload value stored there) -/
  heap : List (Nat × Nat)
  /-- number of times a descriptor `destroy` function pointer was invoked -/
  destroyCount : Nat
  /-- number of times a descriptor `create_from_data` function pointer was invoked -/
  copyCount : Nat
deriving Repr, DecidableEq

/-- `new T(v)`: allocate a fresh heap block holding `v`, return its address. -/
def World.alloc (w : World) (v : Nat) : World × Nat :=
  ({ w with nextAddr := w.nextAddr + 1, heap := (w.nextAddr, v) :: w.heap }, w.nextAddr)

/-- `delete p`: remove the block at `addr` from the live heap. -/
def World.free (w : World) (addr : Nat) : World :=
  { w with heap := w.heap.filter (fun p => p.1 != addr) }

/-- Dereference a heap address. -/
def World.lookup (w : World) (addr : Nat) : Option Nat :=
  (w.heap.find? (fun p => p.1 == addr)).map Prod.snd

/-- Model of the `any::Type` descriptor record (any.h lines 137-144).  The
function pointers are represented by the data that determines them: whether
`destroy` is a null pointer (`hasDestroy = false` models `destroy == nullptr`),
and which strategy class (`TypeOnStack` vs `TypeOnHeap`) the pointers were
taken from (`onStack`).  `ptype_info` is the `const std::type_info*` token and
`name` its printable name. -/
structure TypeDesc where
  hasDestroy : Bool
  onStack : Bool
  ptype_info : Nat
  name : Nat
deriving Repr, DecidableEq

/-- `any::TypeInfo<T>::TypeInfo` (any.h lines 319-327): the descriptor built
for `T`.  The code sets `destroy = nullptr` exactly when
`std::is_pod<T>::value`, regardless of the storage strategy; the strategy
class is `TypeOnStack<T>` when `data_on_stack<T>::value` and `TypeOnHeap<T>`
otherwise (lines 304-308), and `ptype_info = &typeid(T)`. -/
def TypeInfo.get_type (ps : Nat) (T : PayloadType) : TypeDesc :=
  { hasDestroy := !T.isPod
    onStack := data_on_stack ps T
    ptype_info := T.id
    name := T.name }

/-- `TypeOnStack<T>::get_ptr` then dereference: the inline buffer reinterpreted
as a `T` (any.h lines 289-294).  Reading a buffer that does not hold an inline
value is undefined behaviour in C++; the model returns 0 there. -/
def TypeOnStack.get_val (d : Data) : Nat :=
  match d with
  | .stack v => v
  | _ => 0

/-- `TypeOnHeap<T>::get_ptr` then dereference: follow the heap pointer stored
in the buffer (any.h lines 272-277).  Dereferencing a dangling or absent
pointer is undefined behaviour in C++; the model returns 0 there. -/
def TypeOnHeap.get_val (w : World) (d : Data) : Nat :=
  match d with
  | .pheap addr => (w.lookup addr).getD 0
  | _ => 0

/-- `TypeOnHeap<T>::destroy`: `delete static_cast<T*>(data->pheap)`
(any.h lines 281-283). -/
def TypeOnHeap.destroy (w : World) (d : Data) : World :=
  match d with
  | .pheap addr => w.free addr
  | _ => w

/-- `TypeOnStack<T>::destroy`: `dptr->~T()` in place (any.h lines 298-301); no
heap effect. -/
def TypeOnStack.destroy (w : World) (_d : Data) : World := w

/-- Invoke the descriptor's `destroy` function pointer (counted by
`destroyCount`), dispatching to the strategy class it was taken from. -/
def TypeDesc.runDestroy (td : TypeDesc) (w : World) (d : Data) : World :=
  let w1 := { w with destroyCount := w.destroyCount + 1 }
  if td.onStack then TypeOnStack.destroy w1 d else TypeOnHeap.destroy w1 d

/-- Invoke the descriptor's `create_from_data` function pointer (counted by
`copyCount`): `TypeOnStack` placement-copies into the destination buffer
(any.h lines 295-297), `TypeOnHeap` allocates `new T(*src)` and stores the
pointer (any.h lines 278-280). -/
def TypeDesc.runCreate (td : TypeDesc) (w : World) (src : Data) : World × Data :=
  let w1 := { w with copyCount := w.copyCount + 1 }
  if td.onStack then
    (w1, Data.stack (TypeOnStack.get_val src))
  else
    let (w2, addr) := w1.alloc (TypeOnHeap.get_val w1 src)
    (w2, Data.pheap addr)

/-- The `dmlc::any` container: a descriptor pointer (`none` models `nullptr`,
any.h line 158) and the raw `Data` buffer (line 160). -/
structure Any where
  type_ : Option TypeDesc
  data_ : Data
deriving Repr, DecidableEq

/-- `any::any()`: default constructor; `type_` is `nullptr` and `data_` is
uninitialized (any.h line 37). -/
def Any.default : Any := { type_ := none, data_ := Data.uninit }

/-- `any::empty()`: `type_ == nullptr` (any.h lines 235-237). -/
def Any.empty (a : Any) : Bool := a.type_ = none

/-- Token standing for `typeid(void)`, returned by `type()` on an empty
container; no payload type uses it (`typeid` tokens are per-type unique). -/
def voidTypeId : Nat := 0

/-- `any::type()` (any.h lines 239-245): the stored `type_info` token, or
`typeid(void)` when empty. -/
def Any.type (a : Any) : Nat :=
  match a.type_ with
  | some td => td.ptype_info
  | none => voidTypeId

/-- `any::clear()` (any.h lines 226-233): if `type_ != nullptr`, invoke
`type_->destroy(&data_)` unless that pointer is null, then set `type_` to
`nullptr`.  `data_` is left as it was. -/
def Any.clear (w : World) (a : Any) : World × Any :=
  match a.type_ with
  | some td =>
      let w1 := if td.hasDestroy then td.runDestroy w a.data_ else w
      (w1, { a with type_ := none })
  | none => (w, a)

/-- `any::~any()`: calls `clear()` (any.h lines 201-203). -/
def Any.dtor (w : World) (a : Any) : World := (Any.clear w a).1

/-- `any::swap(any&)` (any.h lines 221-224): `std::swap(type_, other.type_);
std::swap(data_, other.data_)` — exchange exactly the two members; result is
`(world, new this, new other)`. -/
def Any.swap (w : World) (a b : Any) : World × Any × Any :=
  (w, { type_ := b.type_, data_ := b.data_ }, { type_ := a.type_, data_ := a.data_ })

/-- `any::any(T&& other)` for a non-`any` payload type (any.h lines 163-178):
obtain `TypeInfo<DT>::get_type()`, then placement-construct into the inline
buffer when `data_on_stack<DT>::value`, else `data_.pheap = new DT(...)`.
The `static_assert(std::is_copy_constructible<DT>::value, ...)` is a
compile-time contract, carried as a hypothesis by the theorems. -/
def Any.ofValue (ps : Nat) (w : World) (T : PayloadType) (v : Nat) : World × Any :=
  let td := TypeInfo.get_type ps T
  if data_on_stack ps T then
    (w, { type_ := some td, data_ := Data.stack v })
  else
    let (w1, addr) := w.alloc v
    (w1, { type_ := some td, data_ := Data.pheap addr })

/-- `any::construct(any&& other)` (any.h lines 188-192): `type_ = other.type_;
data_ = other.data_; other.type_ = nullptr`.  Returns
`(world, new this, new other)`; the world is passed through because the code
makes no allocation and no descriptor call. -/
def Any.constructMove (w : World) (src : Any) : World × Any × Any :=
  (w, { type_ := src.type_, data_ := src.data_ }, { src with type_ := none })

/-- `any::construct(const any& other)` (any.h lines 194-199): `type_ =
other.type_; if (type_ != nullptr) type_->create_from_data(&data_,
other.data_)`.  When the source is empty the destination buffer stays
uninitialized. -/
def Any.constructCopy (w : World) (src : Any) : World × Any :=
  match src.type_ with
  | none => (w, { type_ := none, data_ := Data.uninit })
  | some td =>
      let (w1, d) := td.runCreate w src.data_
      (w1, { type_ := some td, data_ := d })

/-- `any::operator=(any&& other)` with `other` a distinct object (any.h lines
205-208): `any(std::move(other)).swap(*this)`; the temporary's destructor then
runs `clear()` on what it received from `*this`.  Returns
`(world, new this, new other)`. -/
def Any.assignMove (w : World) (self other : Any) : World × Any × Any :=
  let (w1, tmp, other1) := Any.constructMove w other
  let (w2, tmp1, self1) := Any.swap w1 tmp self
  let w3 := Any.dtor w2 tmp1
  (w3, self1, other1)

/-- `any::operator=(const any& other)` (any.h lines 210-213):
`any(other).swap(*this)`, then the temporary's destructor.  With
`other = *this` this is also the exact trace of copy self-assignment: the
copy is taken before `*this` is touched. -/
def Any.assignCopy (w : World) (self other : Any) : World × Any :=
  let (w1, tmp) := Any.constructCopy w other
  let (w2, tmp1, self1) := Any.swap w1 tmp self
  let w3 := Any.dtor w2 tmp1
  (w3, self1)

/-- `any::operator=(T&& other)` for a payload value (any.h lines 215-219):
`any(std::forward<T>(other)).swap(*this)`, then the temporary's destructor. -/
def Any.assignValue (ps : Nat) (w : World) (self : Any) (T : PayloadType) (v : Nat) :
    World × Any :=
  let (w1, tmp) := Any.ofValue ps w T v
  let (w2, tmp1, self1) := Any.swap w1 tmp self
  let w3 := Any.dtor w2 tmp1
  (w3, self1)

/-- Trace of `any::operator=(any&&)` when `other` aliases `*this`
(self move-assignment): `construct(any&&)` first copies the members into the
temporary, then nulls `other.type_` — which is `this->type_` — and then the
temporary is swapped with the (now empty) `*this`. -/
def Any.assignMoveSelf (w : World) (self : Any) : World × Any :=
  let tmp : Any := { type_ := self.type_, data_ := self.data_ }
  let self1 : Any := { self with type_ := none }
  let (w2, tmp1, self2) := Any.swap w tmp self1
  let w3 := Any.dtor w2 tmp1
  (w3, self2)

/-- `any::check_type<T>()` failure outcomes (any.h lines 247-255): the first
`CHECK` fires on an empty container; the second on a token mismatch, with a
diagnostic carrying `type_->ptype_info->name()` (stored) and
`typeid(T).name()` (requested). -/
inductive CheckError where
  | emptyContainer : CheckError
  | mismatch (stored requested : Nat) : CheckError
deriving Repr, DecidableEq

/-- `any::check_type<T>()` (any.h lines 247-255): `CHECK(type_ != nullptr)`,
then `CHECK(type_->ptype_info == &typeid(T))`.  `none` means both checks
pass; `some e` models the fatal `LOG(FATAL)` diagnostic. -/
def Any.check_type (a : Any) (T : PayloadType) : Option CheckError :=
  match a.type_ with
  | none => some CheckError.emptyContainer
  | some td =>
      if td.ptype_info = T.id then none
      else some (CheckError.mismatch td.name T.name)

/-- `any::get<T>()` (any.h lines 257-267, identical for the const and
non-const overloads): run `check_type<T>()`, then return
`*TypeInfo<T>::get_ptr(&data_)`, whose strategy is chosen by
`data_on_stack<T>` (any.h lines 304-308).  A fatal check is modelled as
`Except.error`. -/
def Any.get (ps : Nat) (w : World) (a : Any) (T : PayloadType) : Except CheckError Nat :=
  match a.check_type T with
  | some e => Except.error e
  | none =>
      if data_on_stack ps T then Except.ok (TypeOnStack.get_val a.data_)
      else Except.ok (TypeOnHeap.get_val w a.data_)

/-- The container `a` holds the value `v` of payload type `T` in world `w`:
its descriptor is `T`'s descriptor and its buffer encodes `v` per `T`'s
storage strategy (inline, or a live heap block). -/
def Any.holdsVal (ps : Nat) (w : World) (a : Any) (T : PayloadType) (v : Nat) : Bool :=
  decide (a.type_ = some (TypeInfo.get_type ps T)) &&
    (if data_on_stack ps T then decide (a.data_ = Data.stack v)
     else match a.data_ with
       | .pheap addr => decide (w.lookup addr = some v)
       | _ => false)

/-- `any::construct(const any&)` when the payload copy constructor inside
`create_from_data` throws (`copyOk = false`): the temporary's construction
fails before any member of it is used, `operator new`'s block is released by
the failed `new`-expression, and the exception propagates. -/
def Any.constructCopyE (w : World) (src : Any) (copyOk : Bool) :
    Except Unit (World × Any) :=
  if copyOk then Except.ok (Any.constructCopy w src) else Except.error ()

/-- `any::operator=(const any&)` with a possibly-throwing payload copy: the
only writes to `*this` are in `swap`, which runs after the temporary is fully
constructed, so a throw during construction leaves `*this` and the heap
untouched. -/
def Any.assignCopyE (w : World) (self other : Any) (copyOk : Bool) : World × Any :=
  match Any.constructCopyE w other copyOk with
  | .error _ => (w, self)
  | .ok (w1, tmp) =>
      let (w2, tmp1, self1) := Any.swap w1 tmp self
      let w3 := Any.dtor w2 tmp1
      (w3, self1)

/-- A sample starting world with no live allocations. -/
def w0 : World := { nextAddr := 0, heap := [], destroyCount := 0, copyCount := 0 }

/-- A small POD payload type (fits inline on `ps = 8`): models `int`. -/
def tInt : PayloadType :=
  { id := 1, name := 101, size := 4, align := 4, isPod := true, isTrivDtor := true
    copyConstructible := true }

/-- A heap-strategy non-POD payload type (too big for the inline buffer on
`ps = 8`): models a 4-word object with a nontrivial destructor. -/
def tBig : PayloadType :=
  { id := 2, name := 102, size := 32, align := 8, isPod := false, isTrivDtor := false
    copyConstructible := true }

/-- A heap-strategy POD payload type (too big for the inline buffer on
`ps = 8`): models `struct { void* a[4]; }`. -/
def tBigPod : PayloadType :=
  { id := 3, name := 103, size := 32, align := 8, isPod := true, isTrivDtor := true
    copyConstructible := true }

/-- A non-POD but trivially destructible payload type (e.g. a standard-layout
struct with a user-provided constructor and trivial destructor). -/
def tTrivNonPod : PayloadType :=
  { id := 4, name := 104, size := 8, align := 8, isPod := false, isTrivDtor := true
    copyConstructible := true }

/-- A small non-POD payload type stored inline: models `std::string`-like
data reduced to one word, with a nontrivial destructor. -/
def tSmallNonPod : PayloadType :=
  { id := 5, name := 105, size := 16, align := 8, isPod := false, isTrivDtor := false
    copyConstructible := true }

/-- Addresses live in a well-formed world are below the allocation cursor, so
a fresh allocation never collides with a live block. -/
def World.wf (w : World) : Bool := w.heap.all (fun p => p.1 < w.nextAddr)

theorem find_filter_ne (l : List (Nat × Nat)) (a b : Nat) (hab : a ≠ b) :
    (l.filter (fun p => p.1 != b)).find? (fun p => p.1 == a)
      = l.find? (fun p => p.1 == a) := by
  induction l with
  | nil => rfl
  | cons x xs ih =>
    rcases eq_or_ne x.1 b with hx | hx
    · have h1 : (x.1 != b) = false := by simp [hx]
      have h2 : (x.1 == a) = false := by simp [hx]; omega
      simp [List.filter_cons, h1, List.find?_cons, h2, ih]
    · have h1 : (x.1 != b) = true := by simp [hx]
      rcases eq_or_ne x.1 a with hxa | hxa
      · have h2 : (x.1 == a) = true := by simp [hxa]
        simp [List.filter_cons, h1, List.find?_cons, h2]
      · have h2 : (x.1 == a) = false := by simp [hxa]
        simp [List.filter_cons, h1, List.find?_cons, h2, ih]

theorem lookup_free_ne (w : World) (a b : Nat) (hab : a ≠ b) :
    (w.free b).lookup a = w.lookup a := by
  simp [World.free, World.lookup, find_filter_ne w.heap a b hab]

theorem wf_lookup_lt (w : World) (a v : Nat) (hwf : w.wf = true)
    (h : w.lookup a = some v) : a < w.nextAddr := by
  simp only [World.lookup, Option.map_eq_some'] at h
  obtain ⟨p, hp, -⟩ := h
  have hmem := List.mem_of_find?_eq_some hp
  have hpa : p.1 = a := by simpa using List.find?_some hp
  simp only [World.wf, List.all_eq_true] at hwf
  have hlt := hwf p hmem
  simpa [hpa] using hlt

/-- Claim C2: for every copy-constructible decayed payload type `T` and value
`v`, constructing a container from `v` and then calling `get<T>()` returns a
value equal to `v`, `empty()` is false, and `type()` equals `T`'s identity
token. -/
theorem construct_then_get_roundtrip (ps : Nat) (w : World) (T : PayloadType) (v : Nat)
    (hcc : T.copyConstructible = true) :
    Any.get ps (Any.ofValue ps w T v).1 (Any.ofValue ps w T v).2 T = Except.ok v ∧
    (Any.ofValue ps w T v).2.empty = false ∧
    (Any.ofValue ps w T v).2.type = T.id := by
  by_cases h : data_on_stack ps T = true
  · simp [Any.ofValue, h, Any.get, Any.check_type, TypeInfo.get_type, Any.empty, Any.type,
      TypeOnStack.get_val]
  · simp only [Bool.not_eq_true] at h
    simp [Any.ofValue, h, Any.get, Any.check_type, TypeInfo.get_type, Any.empty, Any.type,
      TypeOnHeap.get_val, World.alloc, World.lookup, List.find?_cons]

/-- Closed instance of `construct_then_get_roundtrip`: an inline `int`-like
payload and a heap `tBig` payload both round-trip. -/
theorem construct_then_get_roundtrip_witness :
    (Any.get 8 (Any.ofValue 8 w0 tInt 3).1 (Any.ofValue 8 w0 tInt 3).2 tInt = Except.ok 3 ∧
      (Any.ofValue 8 w0 tInt 3).2.empty = false ∧
      (Any.ofValue 8 w0 tInt 3).2.type = tInt.id) ∧
    (Any.get 8 (Any.ofValue 8 w0 tBig 7).1 (Any.ofValue 8 w0 tBig 7).2 tBig = Except.ok 7 ∧
      (Any.ofValue 8 w0 tBig 7).2.empty = false ∧
      (Any.ofValue 8 w0 tBig 7).2.type = tBig.id) :=
  ⟨construct_then_get_roundtrip 8 w0 tInt 3 (by decide),
   construct_then_get_roundtrip 8 w0 tBig 7 (by decide)⟩

/-- Claim C7: the storage strategy for `T` is inline iff `sizeof(T)` is at
most 3 machine words and `alignof(T)` at most 1 machine word; inline values
are placed directly in the buffer with no allocation, otherwise a fresh heap
block is allocated and its pointer written into the buffer. -/
theorem storage_strategy_choice (ps : Nat) (w : World) (T : PayloadType) (v : Nat) :
    (data_on_stack ps T = true ↔ (T.size ≤ ps * 3 ∧ T.align ≤ ps)) ∧
    (data_on_stack ps T = true →
      Any.ofValue ps w T v =
        (w, { type_ := some (TypeInfo.get_type ps T), data_ := Data.stack v })) ∧
    (data_on_stack ps T = false →
      (Any.ofValue ps w T v).1.heap = (w.nextAddr, v) :: w.heap ∧
      (Any.ofValue ps w T v).2 =
        { type_ := some (TypeInfo.get_type ps T), data_ := Data.pheap w.nextAddr }) := by
  refine ⟨?_, ?_, ?_⟩
  · simp [data_on_stack, kStack, kAlign, and_comm]
  · intro h
    simp [Any.ofValue, h]
  · intro h
    simp [Any.ofValue, h, World.alloc]

/-- Closed instance of `storage_strategy_choice`: `tInt` (4 bytes) is stored
inline, `tBig` (32 bytes, threshold 24) on the heap. -/
theorem storage_strategy_choice_witness :
    (Any.ofValue 8 w0 tInt 3 =
      (w0, { type_ := some (TypeInfo.get_type 8 tInt), data_ := Data.stack 3 })) ∧
    ((Any.ofValue 8 w0 tBig 7).1.heap = (w0.nextAddr, 7) :: w0.heap ∧
      (Any.ofValue 8 w0 tBig 7).2 =
        { type_ := some (TypeInfo.get_type 8 tBig), data_ := Data.pheap w0.nextAddr }) :=
  ⟨(storage_strategy_choice 8 w0 tInt 3).2.1 (by decide),
   (storage_strategy_choice 8 w0 tBig 7).2.2 (by decide)⟩

/-- Claim C3: move construction copies the source's descriptor pointer and raw
buffer into the destination, leaves the source empty, makes the destination
hold the source's prior value, and invokes no type-specific destroy or copy
operation (the world, including both dispatch counters and the heap, is
unchanged). -/
theorem move_construct_shallow (ps : Nat) (w : World) (a : Any) :
    (Any.constructMove w a).2.1.type_ = a.type_ ∧
    (Any.constructMove w a).2.1.data_ = a.data_ ∧
    (Any.constructMove w a).2.2.empty = true ∧
    (Any.constructMove w a).1 = w ∧
    (∀ T v, Any.holdsVal ps w a T v = true →
      Any.holdsVal ps w (Any.constructMove w a).2.1 T v = true) := by
  refine ⟨rfl, rfl, by simp [Any.constructMove, Any.empty], rfl, ?_⟩
  intro T v h
  simpa [Any.holdsVal, Any.constructMove] using h

/-- Closed instance of `move_construct_shallow`: moving a container holding
`3` as an `int` transfers the value and empties the source. -/
theorem move_construct_shallow_witness :
    Any.holdsVal 8 w0 (Any.constructMove w0 (Any.ofValue 8 w0 tInt 3).2).2.1 tInt 3 = true ∧
    (Any.constructMove w0 (Any.ofValue 8 w0 tInt 3).2).2.2.empty = true :=
  ⟨(move_construct_shallow 8 w0 (Any.ofValue 8 w0 tInt 3).2).2.2.2.2 tInt 3 (by decide),
   (move_construct_shallow 8 w0 (Any.ofValue 8 w0 tInt 3).2).2.2.1⟩

theorem heapDestroy_destroyCount (w : World) (d : Data) :
    (TypeOnHeap.destroy w d).destroyCount = w.destroyCount := by
  rcases d <;> rfl

theorem runDestroy_destroyCount (td : TypeDesc) (w : World) (d : Data) :
    (td.runDestroy w d).destroyCount = w.destroyCount + 1 := by
  unfold TypeDesc.runDestroy
  by_cases h : td.onStack = true
  · simp [h, TypeOnStack.destroy]
  · simp only [Bool.not_eq_true] at h
    simp [h, heapDestroy_destroyCount]

theorem clear_second_noop (w1 : World) (b : Any) (hb : b.type_ = none) :
    Any.clear w1 b = (w1, b) := by
  simp [Any.clear, hb]

/-- `clear` on a container holding a `T` bumps `destroyCount` exactly when the
descriptor's destroy pointer is present, i.e. when `T` is not POD. -/
theorem clear_destroyCount_holds (ps : Nat) (w : World) (a : Any) (T : PayloadType) (v : Nat)
    (hs : Any.holdsVal ps w a T v = true) :
    (Any.clear w a).1.destroyCount = w.destroyCount + (if T.isPod then 0 else 1) := by
  have hty : a.type_ = some (TypeInfo.get_type ps T) := by
    have := (Bool.and_eq_true _ _).mp hs
    exact of_decide_eq_true this.1
  by_cases hp : T.isPod
  · simp [Any.clear, hty, TypeInfo.get_type, hp]
  · simp [Any.clear, hty, TypeInfo.get_type, hp, runDestroy_destroyCount]

/-- Claim C4: `get<T>()` (const and non-const overloads are the same code
path) fails fatally exactly when the container is empty or the stored identity
token differs from `T`'s token; the mismatch diagnostic carries both the
stored and the requested identity; in every other case `get<T>()` succeeds. -/
theorem get_fails_iff_empty_or_mismatch (ps : Nat) (w : World) (a : Any) (T : PayloadType) :
    (a.type_ = none → Any.get ps w a T = Except.error CheckError.emptyContainer) ∧
    (∀ td, a.type_ = some td → td.ptype_info ≠ T.id →
      Any.get ps w a T = Except.error (CheckError.mismatch td.name T.name)) ∧
    (∀ td, a.type_ = some td → td.ptype_info = T.id →
      ∃ v, Any.get ps w a T = Except.ok v) := by
  refine ⟨?_, ?_, ?_⟩
  · intro h
    simp [Any.get, Any.check_type, h]
  · intro td h hne
    simp [Any.get, Any.check_type, h, hne]
  · intro td h he
    by_cases hs : data_on_stack ps T = true
    · exact ⟨TypeOnStack.get_val a.data_, by simp [Any.get, Any.check_type, h, he, hs]⟩
    · simp only [Bool.not_eq_true] at hs
      exact ⟨TypeOnHeap.get_val w a.data_, by simp [Any.get, Any.check_type, h, he, hs]⟩

/-- Closed instance of `get_fails_iff_empty_or_mismatch`: empty access fails,
requesting `tBig` from a container holding `tInt` fails with both identities
in the diagnostic, and the matching request succeeds. -/
theorem get_fails_iff_empty_or_mismatch_witness :
    Any.get 8 w0 Any.default tInt = Except.error CheckError.emptyContainer ∧
    Any.get 8 w0 (Any.ofValue 8 w0 tInt 3).2 tBig
      = Except.error (CheckError.mismatch (TypeInfo.get_type 8 tInt).name tBig.name) ∧
    (∃ v, Any.get 8 w0 (Any.ofValue 8 w0 tInt 3).2 tInt = Except.ok v) :=
  ⟨(get_fails_iff_empty_or_mismatch 8 w0 Any.default tInt).1 rfl,
   (get_fails_iff_empty_or_mismatch 8 w0 (Any.ofValue 8 w0 tInt 3).2 tBig).2.1
      (TypeInfo.get_type 8 tInt) (by decide) (by decide),
   (get_fails_iff_empty_or_mismatch 8 w0 (Any.ofValue 8 w0 tInt 3).2 tInt).2.2
      (TypeInfo.get_type 8 tInt) (by decide) (by decide)⟩

/-- Claim C6: `clear()` is idempotent: after the first call the container is
empty, a second call changes neither the container nor the world (so no
resource is released twice), and the destroy operation runs at most once over
the two calls. -/
theorem clear_idempotent_spec (w : World) (a : Any) :
    (Any.clear w a).2.empty = true ∧
    Any.clear (Any.clear w a).1 (Any.clear w a).2 = Any.clear w a ∧
    (Any.clear w a).1.destroyCount ≤ w.destroyCount + 1 ∧
    (Any.clear (Any.clear w a).1 (Any.clear w a).2).1.destroyCount
      = (Any.clear w a).1.destroyCount := by
  have hnone : (Any.clear w a).2.type_ = none := by
    rcases ha : a.type_ with _ | td <;> simp [Any.clear, ha]
  have hsecond := clear_second_noop (Any.clear w a).1 (Any.clear w a).2 hnone
  refine ⟨by simp [Any.empty, hnone], by rw [hsecond], ?_, by rw [hsecond]⟩
  rcases ha : a.type_ with _ | td
  · simp [Any.clear, ha]
  · by_cases hd : td.hasDestroy = true
    · simp [Any.clear, ha, hd, runDestroy_destroyCount]
    · simp only [Bool.not_eq_true] at hd
      simp [Any.clear, ha, hd]

/-- Claim C9: `swap` exchanges exactly the descriptor pointers and the raw
storage of the two containers, touches the world in no way (no allocation, no
destroy, no copy — no payload constructed or destroyed), and what was
retrievable from one container is afterwards retrievable from the other. -/
theorem swap_exchanges (ps : Nat) (w : World) (a b : Any) :
    (Any.swap w a b).1 = w ∧
    (Any.swap w a b).2.1.type_ = b.type_ ∧
    (Any.swap w a b).2.1.data_ = b.data_ ∧
    (Any.swap w a b).2.2.type_ = a.type_ ∧
    (Any.swap w a b).2.2.data_ = a.data_ ∧
    (∀ T, Any.get ps w (Any.swap w a b).2.1 T = Any.get ps w b T) ∧
    (∀ T, Any.get ps w (Any.swap w a b).2.2 T = Any.get ps w a T) ∧
    (Any.swap w a b).2.1.empty = b.empty ∧
    (Any.swap w a b).2.2.empty = a.empty ∧
    (Any.swap w a b).2.1.type = b.type ∧
    (Any.swap w a b).2.2.type = a.type :=
  ⟨rfl, rfl, rfl, rfl, rfl, fun _ => rfl, fun _ => rfl, rfl, rfl, rfl, rfl⟩

/-- Claim C10: a moved-from container is indistinguishable from a
default-constructed one at the public interface: its descriptor is null, so
`empty()` is true, `type()` is the `typeid(void)` token, `get` behaves as on a
default-constructed container, and a later `clear()` or destruction invokes no
destroy operation and changes nothing — even though the old payload bytes
remain in its buffer. -/
theorem moved_from_like_default (w : World) (a : Any) :
    (Any.constructMove w a).2.2.type_ = none ∧
    (Any.constructMove w a).2.2.empty = true ∧
    (Any.constructMove w a).2.2.type = voidTypeId ∧
    (Any.constructMove w a).2.2.data_ = a.data_ ∧
    (∀ w1, Any.clear w1 (Any.constructMove w a).2.2 = (w1, (Any.constructMove w a).2.2)) ∧
    (∀ w1, Any.dtor w1 (Any.constructMove w a).2.2 = w1) ∧
    (∀ ps w1 T, Any.get ps w1 (Any.constructMove w a).2.2 T = Any.get ps w1 Any.default T) ∧
    Any.default.empty = true ∧ Any.default.type = voidTypeId := by
  refine ⟨rfl, by simp [Any.constructMove, Any.empty], rfl, rfl, ?_, ?_, ?_,
    by simp [Any.default, Any.empty], rfl⟩
  · intro w1
    simp [Any.clear, Any.constructMove]
  · intro w1
    simp [Any.dtor, Any.clear, Any.constructMove]
  · intro ps w1 T
    rfl

theorem holdsVal_type_eq (ps : Nat) (w : World) (a : Any) (T : PayloadType) (v : Nat)
    (hs : Any.holdsVal ps w a T v = true) :
    a.type_ = some (TypeInfo.get_type ps T) := by
  unfold Any.holdsVal at hs
  rw [Bool.and_eq_true] at hs
  exact of_decide_eq_true hs.1

theorem holdsVal_cases (ps : Nat) (w : World) (a : Any) (T : PayloadType) (v : Nat)
    (hs : Any.holdsVal ps w a T v = true) :
    a.type_ = some (TypeInfo.get_type ps T) ∧
    ((data_on_stack ps T = true ∧ a.data_ = Data.stack v) ∨
      (data_on_stack ps T = false ∧
        ∃ α, a.data_ = Data.pheap α ∧ w.lookup α = some v)) := by
  unfold Any.holdsVal at hs
  rw [Bool.and_eq_true] at hs
  obtain ⟨h1, h2⟩ := hs
  refine ⟨of_decide_eq_true h1, ?_⟩
  by_cases hstk : data_on_stack ps T = true
  · rw [if_pos hstk] at h2
    exact Or.inl ⟨hstk, of_decide_eq_true h2⟩
  · simp only [Bool.not_eq_true] at hstk
    rw [if_neg (by simp [hstk])] at h2
    rcases hd : a.data_ with _ | v1 | α
    · rw [hd] at h2
      simp at h2
    · rw [hd] at h2
      simp at h2
    · rw [hd] at h2
      exact Or.inr ⟨hstk, α, rfl, of_decide_eq_true h2⟩

theorem lookup_eq_of_heap (w : World) (a v : Nat) (rest : List (Nat × Nat))
    (h : w.heap = (a, v) :: rest) : w.lookup a = some v := by
  simp [World.lookup, h, List.find?_cons]

theorem runCreate_destroyCount (td : TypeDesc) (w : World) (s : Data) :
    (td.runCreate w s).1.destroyCount = w.destroyCount := by
  unfold TypeDesc.runCreate
  by_cases h : td.onStack = true
  · simp [h]
  · simp only [Bool.not_eq_true] at h
    simp [h, World.alloc]

theorem constructCopy_destroyCount (w : World) (s : Any) :
    (Any.constructCopy w s).1.destroyCount = w.destroyCount := by
  rcases h : s.type_ with _ | td
  · simp [Any.constructCopy, h]
  · simp [Any.constructCopy, h, runCreate_destroyCount]

theorem ofValue_destroyCount (ps : Nat) (w : World) (T : PayloadType) (v : Nat) :
    (Any.ofValue ps w T v).1.destroyCount = w.destroyCount := by
  unfold Any.ofValue
  by_cases h : data_on_stack ps T = true
  · simp [h]
  · simp only [Bool.not_eq_true] at h
    simp [h, World.alloc]

theorem clear_destroyCount_type (ps : Nat) (w1 : World) (a : Any) (T : PayloadType)
    (hty : a.type_ = some (TypeInfo.get_type ps T)) :
    (Any.clear w1 a).1.destroyCount = w1.destroyCount + (if T.isPod then 0 else 1) := by
  by_cases hp : T.isPod
  · simp [Any.clear, hty, TypeInfo.get_type, hp]
  · simp [Any.clear, hty, TypeInfo.get_type, hp, runDestroy_destroyCount]

theorem assignCopy_eq (w : World) (self other : Any) :
    Any.assignCopy w self other
      = ((Any.clear (Any.constructCopy w other).1 self).1, (Any.constructCopy w other).2) := rfl

theorem assignMove_eq (w : World) (self other : Any) :
    Any.assignMove w self other
      = ((Any.clear w self).1, other, { other with type_ := none }) := rfl

theorem assignValue_eq (ps : Nat) (w : World) (self : Any) (T : PayloadType) (v : Nat) :
    Any.assignValue ps w self T v
      = ((Any.clear (Any.ofValue ps w T v).1 self).1, (Any.ofValue ps w T v).2) := rfl

theorem assignMoveSelf_eq (w : World) (self : Any) :
    Any.assignMoveSelf w self = (w, self) := rfl

theorem holdsVal_intro_stack (ps : Nat) (w1 : World) (T : PayloadType) (v : Nat)
    (hstk : data_on_stack ps T = true) :
    Any.holdsVal ps w1 { type_ := some (TypeInfo.get_type ps T), data_ := Data.stack v } T v
      = true := by
  unfold Any.holdsVal
  rw [Bool.and_eq_true]
  exact ⟨by simp, by rw [if_pos hstk]; simp⟩

theorem holdsVal_intro_heap (ps : Nat) (w1 : World) (T : PayloadType) (v α : Nat)
    (hstk : data_on_stack ps T = false) (hl : w1.lookup α = some v) :
    Any.holdsVal ps w1 { type_ := some (TypeInfo.get_type ps T), data_ := Data.pheap α } T v
      = true := by
  unfold Any.holdsVal
  rw [Bool.and_eq_true]
  refine ⟨by simp, ?_⟩
  rw [if_neg (by simp [hstk])]
  show decide (w1.lookup α = some v) = true
  simpa using hl

theorem assignCopy_self_holds (ps : Nat) (w : World) (self : Any) (T : PayloadType) (v : Nat)
    (hwf : w.wf = true) (hs : Any.holdsVal ps w self T v = true) :
    Any.holdsVal ps (Any.assignCopy w self self).1 (Any.assignCopy w self self).2 T v
      = true := by
  obtain ⟨hty, hcase⟩ := holdsVal_cases ps w self T v hs
  rw [assignCopy_eq]
  rcases hcase with ⟨hstk, hd⟩ | ⟨hstk, α, hd, hα⟩
  · have hcc : (Any.constructCopy w self).2
        = { type_ := some (TypeInfo.get_type ps T), data_ := Data.stack v } := by
      simp [Any.constructCopy, hty, TypeDesc.runCreate, TypeInfo.get_type, hstk, hd,
        TypeOnStack.get_val]
    rw [hcc]
    exact holdsVal_intro_stack ps _ T v hstk
  · have hlt := wf_lookup_lt w α v hwf hα
    have hα2 : (w.heap.find? (fun p => p.1 == α)).map Prod.snd = some v := hα
    have hcc2 : (Any.constructCopy w self).2
        = { type_ := some (TypeInfo.get_type ps T), data_ := Data.pheap w.nextAddr } := by
      simp [Any.constructCopy, hty, TypeDesc.runCreate, TypeInfo.get_type, hstk, hd,
        World.alloc]
    have hheap : (Any.constructCopy w self).1.heap = (w.nextAddr, v) :: w.heap := by
      simp [Any.constructCopy, hty, TypeDesc.runCreate, TypeInfo.get_type, hstk, hd,
        TypeOnHeap.get_val, World.alloc, World.lookup, hα2]
    rw [hcc2]
    apply holdsVal_intro_heap ps _ T v w.nextAddr hstk
    by_cases hpod : T.isPod = true
    · have hcl : (Any.clear (Any.constructCopy w self).1 self).1
          = (Any.constructCopy w self).1 := by
        simp [Any.clear, hty, TypeInfo.get_type, hpod]
      rw [hcl]
      exact lookup_eq_of_heap _ _ _ _ hheap
    · simp only [Bool.not_eq_true] at hpod
      have hcl : (Any.clear (Any.constructCopy w self).1 self).1
          = World.free
              { (Any.constructCopy w self).1 with
                  destroyCount := (Any.constructCopy w self).1.destroyCount + 1 } α := by
        simp [Any.clear, hty, TypeInfo.get_type, hpod, TypeDesc.runDestroy, hstk, hd,
          TypeOnHeap.destroy]
      rw [hcl]
      have hne : w.nextAddr ≠ α := by omega
      rw [lookup_free_ne _ _ _ hne]
      exact lookup_eq_of_heap _ _ _ w.heap hheap

/-- Claim C5: every assignment (copy or move from another container, or from
a value) constructs a temporary from the right-hand side and swaps it into the
target, so the target's previous content is destroyed exactly once by the
temporary's destructor — one destroy call when its descriptor has one, zero
when absent (POD content); if construction of the temporary throws, the
target and the world are unmodified; and assigning a container to itself, by
copy or by move, leaves its held value unchanged. -/
theorem assignment_swap_discipline (ps : Nat) (w : World) (self other : Any)
    (T : PayloadType) (v : Nat)
    (hwf : w.wf = true) (hs : Any.holdsVal ps w self T v = true) :
    ((Any.assignCopy w self other).1.destroyCount
        = w.destroyCount + (if T.isPod then 0 else 1)) ∧
    ((Any.assignMove w self other).1.destroyCount
        = w.destroyCount + (if T.isPod then 0 else 1)) ∧
    (∀ S u, (Any.assignValue ps w self S u).1.destroyCount
        = w.destroyCount + (if T.isPod then 0 else 1)) ∧
    Any.assignCopyE w self other false = (w, self) ∧
    Any.holdsVal ps (Any.assignCopy w self self).1 (Any.assignCopy w self self).2 T v
      = true ∧
    Any.holdsVal ps (Any.assignMoveSelf w self).1 (Any.assignMoveSelf w self).2 T v
      = true ∧
    (Any.assignMoveSelf w self).1.destroyCount = w.destroyCount := by
  have hty := holdsVal_type_eq ps w self T v hs
  refine ⟨?_, ?_, ?_, rfl, assignCopy_self_holds ps w self T v hwf hs, hs, rfl⟩
  · have h1 : (Any.assignCopy w self other).1
        = (Any.clear (Any.constructCopy w other).1 self).1 := rfl
    rw [h1, clear_destroyCount_type ps _ self T hty, constructCopy_destroyCount]
  · have h1 : (Any.assignMove w self other).1 = (Any.clear w self).1 := rfl
    rw [h1, clear_destroyCount_type ps w self T hty]
  · intro S u
    have h1 : (Any.assignValue ps w self S u).1
        = (Any.clear (Any.ofValue ps w S u).1 self).1 := rfl
    rw [h1, clear_destroyCount_type ps _ self T hty, ofValue_destroyCount]

/-- Closed instance of `assignment_swap_discipline`: assigning the empty
container into a heap `tBig` holder runs the old content's destroy exactly
once, and copy self-assignment of that holder keeps its value `7`. -/
theorem assignment_swap_discipline_witness :
    ((Any.assignCopy (Any.ofValue 8 w0 tBig 7).1 (Any.ofValue 8 w0 tBig 7).2
        Any.default).1.destroyCount
      = (Any.ofValue 8 w0 tBig 7).1.destroyCount + (if tBig.isPod then 0 else 1)) ∧
    Any.holdsVal 8
      (Any.assignCopy (Any.ofValue 8 w0 tBig 7).1 (Any.ofValue 8 w0 tBig 7).2
        (Any.ofValue 8 w0 tBig 7).2).1
      (Any.assignCopy (Any.ofValue 8 w0 tBig 7).1 (Any.ofValue 8 w0 tBig 7).2
        (Any.ofValue 8 w0 tBig 7).2).2 tBig 7 = true :=
  ⟨(assignment_swap_discipline 8 (Any.ofValue 8 w0 tBig 7).1 (Any.ofValue 8 w0 tBig 7).2
      Any.default tBig 7 (by decide) (by decide)).1,
   (assignment_swap_discipline 8 (Any.ofValue 8 w0 tBig 7).1 (Any.ofValue 8 w0 tBig 7).2
      Any.default tBig 7 (by decide) (by decide)).2.2.2.2.1⟩

/-- Claim C1, evaluated at the failing input: `tBigPod` (a 32-byte POD on a
64-bit platform, e.g. a struct holding four raw pointers) exceeds the inline
threshold, so its value is heap-allocated; but `TypeInfo`'s constructor nulls
`destroy` for every POD type without regard to the storage strategy, so the
heap-strategy descriptor has no destroy op and `clear()` (hence also the
destructor) releases the allocation zero times — the block stays live —
instead of exactly once.  For the non-POD heap type `tBig` the block is
released exactly once, as the claim demands. -/
theorem clear_heap_pod_leaks :
    data_on_stack 8 tBigPod = false ∧
    (TypeInfo.get_type 8 tBigPod).hasDestroy = false ∧
    (Any.clear (Any.ofValue 8 w0 tBigPod 7).1 (Any.ofValue 8 w0 tBigPod 7).2).2.empty
      = true ∧
    (Any.clear (Any.ofValue 8 w0 tBigPod 7).1 (Any.ofValue 8 w0 tBigPod 7).2).1.heap
      = [(0, 7)] ∧
    (Any.clear (Any.ofValue 8 w0 tBigPod 7).1 (Any.ofValue 8 w0 tBigPod 7).2).1.destroyCount
      = 0 ∧
    (Any.dtor (Any.ofValue 8 w0 tBigPod 7).1 (Any.ofValue 8 w0 tBigPod 7).2).heap
      = [(0, 7)] ∧
    (TypeInfo.get_type 8 tBig).hasDestroy = true ∧
    (Any.clear (Any.ofValue 8 w0 tBig 7).1 (Any.ofValue 8 w0 tBig 7).2).1.heap = [] ∧
    (Any.clear (Any.ofValue 8 w0 tBig 7).1 (Any.ofValue 8 w0 tBig 7).2).1.destroyCount
      = 1 := by
  decide

/-- Claim C8, counterexample: `tTrivNonPod` is trivially destructible but not
POD (e.g. a struct with a user-provided constructor and a trivial
destructor); the constructor tests `std::is_pod`, not trivial
destructibility, so its descriptor's destroy operation is present — refuting
"absent exactly when T is trivially destructible". -/
theorem destroy_presence_counterexample :
    tTrivNonPod.isTrivDtor = true ∧ tTrivNonPod.isPod = false ∧
    (TypeInfo.get_type 8 tTrivNonPod).hasDestroy = true := by
  decide

/-- Claim C8, amended: the descriptor's destroy operation is absent exactly
when `std::is_pod<T>::value` holds (a strictly stronger condition than
trivial destructibility), and `clear()` on a container holding `T`
correspondingly invokes destroy zero times for POD `T` and exactly once
otherwise. -/
theorem destroy_absent_iff_pod (ps : Nat) (w : World) (a : Any) (T : PayloadType) (v : Nat)
    (hs : Any.holdsVal ps w a T v = true) :
    ((TypeInfo.get_type ps T).hasDestroy = false ↔ T.isPod = true) ∧
    (Any.clear w a).1.destroyCount = w.destroyCount + (if T.isPod then 0 else 1) := by
  refine ⟨?_, clear_destroyCount_type ps w a T (holdsVal_type_eq ps w a T v hs)⟩
  cases hp : T.isPod <;> simp [TypeInfo.get_type, hp]

/-- Closed instance of `destroy_absent_iff_pod`: the inline non-POD type
`tSmallNonPod` has a present destroy op and `clear()` runs it once. -/
theorem destroy_absent_iff_pod_witness :
    (((TypeInfo.get_type 8 tSmallNonPod).hasDestroy = false ↔ tSmallNonPod.isPod = true) ∧
      (Any.clear (Any.ofValue 8 w0 tSmallNonPod 4).1
        (Any.ofValue 8 w0 tSmallNonPod 4).2).1.destroyCount
        = (Any.ofValue 8 w0 tSmallNonPod 4).1.destroyCount
            + (if tSmallNonPod.isPod then 0 else 1)) :=
  destroy_absent_iff_pod 8 (Any.ofValue 8 w0 tSmallNonPod 4).1
    (Any.ofValue 8 w0 tSmallNonPod 4).2 tSmallNonPod 4 (by decide)

end DmlcAny
